/-
Verification of the QuantPulse agentic ensemble prediction service
(`app/services/ensemble_service.py`).

The service fuses three analyzers — a quant trend forecaster, a graph-Laplacian
topology risk analyzer, and a sentiment normalizer — into a weighted, cached
ensemble prediction.  This file shallowly embeds the service in Lean 4:

* Python floats are modelled as exact rationals (ℚ).  `round(x, n)` is modelled
  by `roundTo n` (round half up on exact rationals; the binary float ties of
  Python's banker rounding have no exact-rational counterpart).
* `numpy.std` takes a square root; `ratSqrt` models it and is exact on every
  rational that is the square of a rational (all series used in the theorems
  below are chosen in that regime).
* The numerical eigen-decomposition `numpy.linalg.eigvalsh` of the Laplacian is
  not exactly computable; its outcome (the list of eigenvalues, or a solver
  failure) is carried as a field of the topology environment, mirroring how the
  agent consumes it.  The graph data itself (`graphData.json`, static data of
  the repository, not part of the sources) is modelled from the spec's data
  model: nodes with id / group / risk score, optional weighted links, clusters.
* The per-agent state loaded at startup (`market_data`, `graph_data`,
  `adjacency_matrix`) is passed as explicit environment records.
* The TTL result cache is modelled as an association list of
  (key, insertion time, value); `datetime.now()` is an explicit clock argument.
  The string cache key `f"{symbol}_{current_price}_{shock_simulation}"` is
  modelled by the triple (symbol, price, flag) that determines it.
-/

import Mathlib

namespace QuantPulse

-- The arithmetic of `Rat` is `@[irreducible]` upstream; restore definitional
-- unfolding so that concrete results can be checked by `decide`.
attribute [local semireducible] Rat.add Rat.sub Rat.mul Rat.inv Rat.ofScientific

/-- Model of `round(x, n)`: round to `n` decimal places, to the nearest
representable value (ties rounded up: `⌊y + 1/2⌋` is `round y`). -/
def roundTo (n : ℕ) (x : ℚ) : ℚ := (⌊x * 10 ^ n + 1 / 2⌋ : ℤ) / 10 ^ n

/-- Integer square root by Newton iteration on explicit fuel (the same floor
square root as `Nat.sqrt`, in a kernel-computable form). -/
def isqrtAux (n : ℕ) : ℕ → ℕ → ℕ
  | 0, x => x
  | fuel + 1, x =>
      let y := (x + n / x) / 2
      if y < x then isqrtAux n fuel y else x

/-- Floor integer square root. -/
def isqrt (n : ℕ) : ℕ := if n ≤ 1 then n else isqrtAux n n ((n + 1) / 2)

/-- Rational square root, exact on squares of rationals: models the numeric
square root inside `numpy.std`. -/
def ratSqrt (q : ℚ) : ℚ := (isqrt q.num.toNat : ℚ) / (isqrt q.den : ℚ)

/-- `numpy.mean` on a list of floats. -/
def listMean (l : List ℚ) : ℚ := l.sum / (l.length : ℚ)

/-- `np.diff(prices) / prices[:-1]` — the simple returns of a price series. -/
def simpleReturns (prices : List ℚ) : List ℚ :=
  (prices.zip prices.tail).map (fun pq => (pq.2 - pq.1) / pq.1)

/-- Population variance, as `numpy` computes it (ddof = 0). -/
def listVariance (l : List ℚ) : ℚ :=
  listMean (l.map (fun r => (r - listMean l) ^ 2))

/-- `np.std l = sqrt (mean ((l - mean l)^2))`. -/
def stdDev (l : List ℚ) : ℚ := ratSqrt (listVariance l)

/-! ## Quant Agent (`QuantAgent.get_base_forecast`) -/

/-- The forecast dictionary produced by `QuantAgent.get_base_forecast`. -/
structure Forecast where
  base_price : ℚ
  predicted_price : ℚ
  direction : String
  confidence : ℚ
  volatility : ℚ
  trend_strength : ℚ
  method : String
deriving DecidableEq

/-- `QuantAgent` state: `self.market_data` (the loaded CSV), modelled as an
optional column lookup returning the cleaned (`dropna`) price series. -/
structure QuantEnv where
  marketData : Option (String → Option (List ℚ))

/-- Model of `str.upper()`, character by character (kernel-computable, unlike
the position-based `String.toUpper`). -/
def strUpper (s : String) : String := String.mk (s.data.map Char.toUpper)

/-- `f"{symbol.upper()}.NS"` — the CSV column associated with a symbol. -/
def symbolCol (symbol : String) : String := strUpper symbol ++ ".NS"

/-- The price series the agent would extract for `symbol`, if any. -/
def seriesFor (env : QuantEnv) (symbol : String) : Option (List ℚ) :=
  match env.marketData with
  | none => none
  | some cols => cols (symbolCol symbol)

/-- The default forecast assigned before any data is consulted
(`ensemble_service.py` lines 66–74). -/
def fallbackForecast (current_price : ℚ) : Forecast :=
  { base_price := current_price
    predicted_price := current_price * 1.02
    direction := "UP"
    confidence := 65
    volatility := 0.02
    trend_strength := 0.5
    method := "fallback" }

/-- The technical-indicator branch of `get_base_forecast`
(lines 80–120), taken when at least 20 prices are available. -/
def quantTechnical (prices : List ℚ) (current_price : ℚ) : Forecast :=
  let returns := simpleReturns prices
  let volatility := stdDev returns
  let sma_20 := listMean (prices.drop (prices.length - 20))
  let sma_5 := listMean (prices.drop (prices.length - 5))
  let current := prices.getLastD 0
  let trend := (sma_5 - sma_20) / sma_20
  let momentum := (current - sma_5) / sma_5
  let dirChange : String × ℚ :=
    if trend > 0.01 ∧ momentum > 0 then
      ("UP", |trend| * (1 + momentum))
    else if trend < -0.01 ∧ momentum < 0 then
      ("DOWN", -|trend| * (1 + |momentum|))
    else
      ("SIDEWAYS", trend * 0.5)
  let predicted_price := current_price * (1 + dirChange.2)
  let trend_strength := min (|trend| * 100) 1
  let confidence := 50 + trend_strength * 40
  { base_price := current_price
    predicted_price := roundTo 2 predicted_price
    direction := dirChange.1
    confidence := roundTo 1 confidence
    volatility := roundTo 2 (volatility * 100)
    trend_strength := roundTo 2 trend_strength
    method := "lstm_technical" }

/-- `QuantAgent.get_base_forecast` (lines 54–125): technical branch when a
series of at least 20 observations exists for the symbol's column, otherwise
the fallback forecast. -/
def get_base_forecast (env : QuantEnv) (symbol : String) (current_price : ℚ) :
    Forecast :=
  match seriesFor env symbol with
  | none => fallbackForecast current_price
  | some prices =>
      if prices.length ≥ 20 then quantTechnical prices current_price
      else fallbackForecast current_price

/-! ## Topology Agent (`TopologyAgent.compute_laplacian_risk`) -/

/-- A node of `graphData.json`.  Modelled from the spec: an instrument id, a
sector group, and an optional risk score (the code defaults it to 0.4 for the
node itself and 0.5 for neighbors via `dict.get`). -/
structure GraphNode where
  id : String
  group : ℤ
  risk_score : Option ℚ
deriving DecidableEq

/-- A link of `graphData.json`; `value` is the optional edge weight
(`link.get('value', 1)`). -/
structure GraphLink where
  source : String
  target : String
  value : Option ℚ
deriving DecidableEq

/-- A cluster from `graphData.json`'s `insights.clusters`. -/
structure GraphCluster where
  name : Option String
  risk : Option String
  members : List String
deriving DecidableEq

/-- The parsed `graphData.json`. -/
structure GraphData where
  nodes : List GraphNode
  links : List GraphLink
  clusters : List GraphCluster

/-- `self.nodes = [n['id'] for n in self.graph_data.get('nodes', [])]`. -/
def nodeIds (g : GraphData) : List String := g.nodes.map (fun n => n.id)

/-- A single assignment `A[i, j] = v` on a matrix represented as a function. -/
def writeCell (A : ℕ → ℕ → ℚ) (i j : ℕ) (v : ℚ) : ℕ → ℕ → ℚ :=
  fun a b => if a = i ∧ b = j then v else A a b

/-- `TopologyAgent._build_adjacency_matrix` (lines 159–190): start from zeros;
if links exist write each symmetric pair in order, otherwise synthesize
same-group weight 0.7 / cross-group weight 0.3 correlations. -/
def buildAdjacency (g : GraphData) : ℕ → ℕ → ℚ :=
  let ns := nodeIds g
  if g.links ≠ [] then
    g.links.foldl
      (fun A l =>
        if l.source ∈ ns ∧ l.target ∈ ns then
          let i := ns.indexOf l.source
          let j := ns.indexOf l.target
          let v := l.value.getD 1
          writeCell (writeCell A i j v) j i v
        else A)
      (fun _ _ => 0)
  else
    g.nodes.foldl
      (fun A nd =>
        if nd.id ∈ ns then
          g.nodes.foldl
            (fun B om =>
              if om.id ∈ ns ∧ om.id ≠ nd.id then
                writeCell B (ns.indexOf nd.id) (ns.indexOf om.id)
                  (if om.group = nd.group then 0.7 else 0.3)
              else B)
            A
        else A)
      (fun _ _ => 0)

/-- A `neighbor_signals` entry. -/
structure NeighborSignal where
  symbol : String
  signal : String
  risk_score : ℚ
deriving DecidableEq

/-- The dictionary returned by `compute_laplacian_risk`. -/
structure TopologyRiskResult where
  network_risk_penalty : ℚ
  risk_adjustment : ℚ
  centrality_score : ℚ
  cluster_name : String
  cluster_risk : String
  neighbor_signals : List NeighborSignal
  contagion_risk : ℚ
deriving DecidableEq

/-- The neutral default assigned at lines 201–209. -/
def defaultTopologyRisk : TopologyRiskResult :=
  { network_risk_penalty := 0
    risk_adjustment := 1
    centrality_score := 0.5
    cluster_name := "Unknown"
    cluster_risk := "Moderate"
    neighbor_signals := []
    contagion_risk := 0 }

/-- `TopologyAgent` state: `self.graph_data`, `self.adjacency_matrix` (which
can be absent when the matrix build failed during load), and the outcome of
`np.linalg.eigvalsh` on the Laplacian of that matrix — the floating-point
eigen-solver is abstracted as environment data (either the eigenvalue list it
returns or a raised `LinAlgError`). -/
structure TopologyEnv where
  graph_data : Option GraphData
  adjacency : Option (ℕ → ℕ → ℚ)
  eig : Except String (List ℚ)

/-- Cluster resolution (lines 236–242): scan `insights.clusters` for the first
cluster whose members contain the symbol; default `("General", "Moderate")`. -/
def findCluster (g : GraphData) (symU : String) : String × String :=
  match g.clusters.find? (fun c => symU ∈ c.members) with
  | some c => (c.name.getD "Unknown", c.risk.getD "Moderate")
  | none => ("General", "Moderate")

/-- Degree centrality (lines 228–231): count of strictly positive entries of
the symbol's adjacency row, over `len(nodes) - 1`. -/
def degreeCentrality (A : ℕ → ℕ → ℚ) (node_idx n : ℕ) : ℚ :=
  let degree := ((List.range n).filter (fun j => decide (A node_idx j > 0))).length
  let max_degree := n - 1
  if max_degree > 0 then (degree : ℚ) / (max_degree : ℚ) else 0

/-- Fiedler-value extraction (lines 251–253): sort the eigenvalues ascending
and take the second smallest, or 0 when fewer than two eigenvalues exist. -/
def fiedlerOf (eigenvalues : List ℚ) : ℚ :=
  if eigenvalues.length > 1 then
    (eigenvalues.insertionSort (fun a b => a ≤ b)).getD 1 0
  else 0

/-- Neighbor-signal collection (lines 261–274): the first five columns with a
strictly positive adjacency entry, each resolved against the node list. -/
def neighborSignalsOf (g : GraphData) (A : ℕ → ℕ → ℚ) (node_idx : ℕ) :
    List NeighborSignal :=
  let ns := nodeIds g
  (((List.range ns.length).filter (fun j => decide (A node_idx j > 0))).take 5).filterMap
    (fun j =>
      let n_symbol := ns.getD j ""
      match g.nodes.find? (fun nd => nd.id = n_symbol) with
      | some nd =>
          some { symbol := n_symbol
                 signal := if nd.risk_score.getD 0.5 < 0.4 then "bullish" else "bearish"
                 risk_score := nd.risk_score.getD 0.5 }
      | none => none)

/-- Assembly of the non-default result (lines 276–298) from the computed
centrality, contagion and neighbor signals. -/
def riskBody (g : GraphData) (symU : String) (centrality contagion : ℚ)
    (neighbor_signals : List NeighborSignal) : TopologyRiskResult :=
  let cl := findCluster g symU
  let base :=
    if cl.2 = "Critical" then 0.05 + contagion * 0.05
    else if cl.2 = "High" then 0.03 + contagion * 0.03
    else contagion * 0.02
  let bearish_count :=
    (neighbor_signals.filter (fun s => s.signal = "bearish")).length
  let risk_penalty :=
    if (bearish_count : ℚ) > (neighbor_signals.length : ℚ) / 2 then
      base + 0.02 * (bearish_count : ℚ)
    else base
  { network_risk_penalty := roundTo 4 risk_penalty
    risk_adjustment := roundTo 4 (1 - risk_penalty)
    centrality_score := roundTo 3 centrality
    cluster_name := cl.1
    cluster_risk := cl.2
    neighbor_signals := neighbor_signals
    contagion_risk := roundTo 3 contagion }

/-- The `try` body of `compute_laplacian_risk` (lines 214–298), for a symbol
already known to be a graph node.  The only raisable step is the
eigen-decomposition; everything else is total. -/
def computeRiskRaw (env : TopologyEnv) (g : GraphData) (symU : String) :
    Except String TopologyRiskResult :=
  let ns := nodeIds g
  let node_idx := ns.indexOf symU
  match g.nodes.find? (fun n => n.id = symU) with
  | none => Except.ok defaultTopologyRisk
  | some _node_data =>
      match env.adjacency with
      | none =>
          -- matrix unavailable: centrality 0.5, contagion 0.3, no neighbors
          Except.ok (riskBody g symU 0.5 0.3 [])
      | some A =>
          match env.eig with
          | Except.error e => Except.error e
          | Except.ok eigenvalues =>
              let centrality := degreeCentrality A node_idx ns.length
              let contagion := min (fiedlerOf eigenvalues / 10) 1
              let sigs := neighborSignalsOf g A node_idx
              Except.ok (riskBody g symU centrality contagion sigs)

/-- `TopologyAgent.compute_laplacian_risk` (lines 192–303): neutral default
when the graph is absent or the symbol unknown, otherwise the computed result,
with any raised error caught and replaced by the default. -/
def compute_laplacian_risk (env : TopologyEnv) (symbol : String) :
    TopologyRiskResult :=
  match env.graph_data with
  | none => defaultTopologyRisk
  | some g =>
      if strUpper symbol ∈ nodeIds g then
        match computeRiskRaw env g (strUpper symbol) with
        | Except.ok r => r
        | Except.error _ => defaultTopologyRisk
      else defaultTopologyRisk

/-! ## Sentiment Agent (`SentimentAgent.get_sentiment_multiplier`) -/

/-- A loosely typed Python value, as found inside the sentiment payload. -/
inductive PyVal where
  | str : String → PyVal
  | num : ℚ → PyVal
  | bool : Bool → PyVal
  | null : PyVal
  | dict : List (String × PyVal) → PyVal

/-- `d.get(k, dflt)` on a Python dict (keys are unique, so the first binding
of an association list is the binding). -/
def dictGet (d : List (String × PyVal)) (k : String) (dflt : PyVal) : PyVal :=
  match d.find? (fun p => p.1 = k) with
  | some p => p.2
  | none => dflt

/-- The dictionary returned by `get_sentiment_multiplier`. -/
structure SentimentResult where
  consensus_score : ℚ
  sentiment_multiplier : ℚ
  sentiment_label : String
  bull_bear_ratio : ℚ
  confidence : ℚ
deriving DecidableEq

/-- The neutral sentiment default assigned at lines 325–331. -/
def defaultSentiment : SentimentResult :=
  { consensus_score := 0
    sentiment_multiplier := 1
    sentiment_label := "Neutral"
    bull_bear_ratio := 0.5
    confidence := 50 }

/-- Confidence scaling, clamping and result assembly (lines 353–371), applied
to the (base multiplier, consensus, label) triple and the extracted numeric
confidence. -/
def sentimentFrom (bcl : ℚ × ℚ × String) (news_confidence : ℚ) :
    SentimentResult :=
  let base_multiplier := bcl.1
  let consensus := bcl.2.1
  let label := bcl.2.2
  let confidence_factor := news_confidence / 100
  let multiplier :=
    if base_multiplier > 1 then
      1 + 0.1 * confidence_factor * (base_multiplier - 1) / 0.05
    else if base_multiplier < 1 then
      1 - 0.1 * confidence_factor * (1 - base_multiplier) / 0.05
    else 1
  let multiplier := max 0.9 (min 1.1 multiplier)
  { consensus_score := roundTo 2 consensus
    sentiment_multiplier := roundTo 4 multiplier
    sentiment_label := label
    bull_bear_ratio := roundTo 2 (0.5 + consensus * 0.5)
    confidence := news_confidence }

/-- Direction mapping (lines 340–351).  `news_direction == 'UP'` /
`== 'DOWN'`: a non-string value is simply unequal to both. -/
def directionTriple (v : PyVal) : ℚ × ℚ × String :=
  match v with
  | PyVal.str s =>
      if s = "UP" then (1.05, 0.5, "Bullish")
      else if s = "DOWN" then (0.95, -0.5, "Bearish")
      else (1, 0, "Neutral")
  | _ => (1, 0, "Neutral")

/-- The `try` body of `get_sentiment_multiplier` (lines 334–371).  Raisable
steps: `.get` on a non-dict `news` value (`AttributeError`) and division of a
non-numeric confidence (`TypeError`); a Python `bool` divides like 0 or 1. -/
def sentimentRaw (d : List (String × PyVal)) : Except String SentimentResult :=
  match dictGet d "news" (PyVal.dict []) with
  | PyVal.dict news =>
      let bcl := directionTriple (dictGet news "sentimentDirection" (PyVal.str "NEUTRAL"))
      match dictGet news "confidence" (PyVal.num 50) with
      | PyVal.num news_confidence =>
          Except.ok (sentimentFrom bcl news_confidence)
      | PyVal.bool b => Except.ok (sentimentFrom bcl (if b then 1 else 0))
      | _ => Except.error "TypeError"
  | _ => Except.error "AttributeError"

/-- `SentimentAgent.get_sentiment_multiplier` (lines 314–376): neutral default
for an absent (or falsy empty) payload and for any caught error, otherwise the
computed result. -/
def get_sentiment_multiplier (d : Option (List (String × PyVal))) :
    SentimentResult :=
  match d with
  | none => defaultSentiment
  | some m =>
      match m with
      | [] => defaultSentiment   -- `if sentiment_data:` — the empty dict is falsy
      | _ :: _ =>
          match sentimentRaw m with
          | Except.ok r => r
          | Except.error _ => defaultSentiment

/-! ## Orchestrator (`EnsembleOrchestrator.predict`) -/

/-- The `quant_agent` component block of the ensemble result. -/
structure QuantComponent where
  base_forecast : ℚ
  confidence : ℚ
  direction : String
  volatility : ℚ
  trend_strength : ℚ
  weight : ℚ
deriving DecidableEq

/-- The `topology_agent` component block of the ensemble result. -/
structure TopologyComponent where
  risk_adjustment : ℚ
  adjusted_price : ℚ
  network_risk_penalty : ℚ
  cluster_name : String
  cluster_risk : String
  centrality_score : ℚ
  contagion_risk : ℚ
  neighbor_signals : List NeighborSignal
  weight : ℚ
deriving DecidableEq

/-- The `sentiment_agent` component block of the ensemble result. -/
structure SentimentComponent where
  sentiment_multiplier : ℚ
  consensus_score : ℚ
  sentiment_label : String
  bull_bear_ratio : ℚ
  confidence : ℚ
  weight : ℚ
deriving DecidableEq

/-- The `comparison` block of the ensemble result. -/
structure ComparisonData where
  lstm_base : ℚ
  agentic_adjusted : ℚ
  topology_adjustment_pct : ℚ
  sentiment_adjustment_pct : ℚ
  total_adjustment_pct : ℚ
deriving DecidableEq

/-- The full `EnsembleResult` dictionary assembled at lines 471–527.
`timestamp` is the `datetime.now()` clock reading at computation time. -/
structure EnsembleResult where
  symbol : String
  timestamp : ℚ
  current_price : ℚ
  weighted_prediction : ℚ
  confidence_score : ℚ
  direction : String
  price_change_percent : ℚ
  quant_component : QuantComponent
  topology_component : TopologyComponent
  sentiment_component : SentimentComponent
  comparison : ComparisonData
  shock_simulation_active : Bool
  disclaimer : String
deriving DecidableEq

/-- The agent weights of `EnsembleOrchestrator.__init__`. -/
def quantWeight : ℚ := 0.50
/-- Topology weight. -/
def topologyWeight : ℚ := 0.30
/-- Sentiment weight. -/
def sentimentWeight : ℚ := 0.20

/-- The shock-simulation update of the topology result (lines 432–435),
applied after the analyzer runs and before fusion. -/
def shockAdjust (t : TopologyRiskResult) : TopologyRiskResult :=
  { t with
    risk_adjustment := t.risk_adjustment * 0.9
    network_risk_penalty := t.network_risk_penalty + 0.1
    contagion_risk := min (t.contagion_risk + 0.3) 1 }

/-- The whole environment the orchestrator's agents read. -/
structure Env where
  quant : QuantEnv
  topo : TopologyEnv

/-- The cache-miss computation of `EnsembleOrchestrator.predict`
(lines 426–527): run the three agents, apply the shock update if requested,
fuse multiplicatively, classify the direction, and assemble the result. -/
def predictCore (env : Env) (now : ℚ) (symbol : String) (current_price : ℚ)
    (sentiment_data : Option (List (String × PyVal))) (shock_simulation : Bool) :
    EnsembleResult :=
  let quant_forecast := get_base_forecast env.quant symbol current_price
  let topology_risk0 := compute_laplacian_risk env.topo symbol
  let sentiment := get_sentiment_multiplier sentiment_data
  let topology_risk := if shock_simulation then shockAdjust topology_risk0 else topology_risk0
  let base_predicted := quant_forecast.predicted_price
  let topology_adjusted := base_predicted * topology_risk.risk_adjustment
  let final_predicted := topology_adjusted * sentiment.sentiment_multiplier
  let quant_conf := quant_forecast.confidence
  let topology_conf := (1 - topology_risk.network_risk_penalty) * 100
  let sentiment_conf := sentiment.confidence
  let ensemble_confidence :=
    quant_conf * quantWeight + topology_conf * topologyWeight +
      sentiment_conf * sentimentWeight
  let price_change_pct := ((final_predicted - current_price) / current_price) * 100
  let final_direction :=
    if price_change_pct > 1 then "UP"
    else if price_change_pct < -1 then "DOWN"
    else "SIDEWAYS"
  let topology_adjustment := ((topology_adjusted - base_predicted) / base_predicted) * 100
  let sentiment_adjustment :=
    if topology_adjusted > 0 then
      ((final_predicted - topology_adjusted) / topology_adjusted) * 100
    else 0
  { symbol := strUpper symbol
    timestamp := now
    current_price := current_price
    weighted_prediction := roundTo 2 final_predicted
    confidence_score := roundTo 1 ensemble_confidence
    direction := final_direction
    price_change_percent := roundTo 2 price_change_pct
    quant_component :=
      { base_forecast := roundTo 2 base_predicted
        confidence := quant_forecast.confidence
        direction := quant_forecast.direction
        volatility := quant_forecast.volatility
        trend_strength := quant_forecast.trend_strength
        weight := quantWeight }
    topology_component :=
      { risk_adjustment := topology_risk.risk_adjustment
        adjusted_price := roundTo 2 topology_adjusted
        network_risk_penalty := topology_risk.network_risk_penalty
        cluster_name := topology_risk.cluster_name
        cluster_risk := topology_risk.cluster_risk
        centrality_score := topology_risk.centrality_score
        contagion_risk := topology_risk.contagion_risk
        neighbor_signals := topology_risk.neighbor_signals
        weight := topologyWeight }
    sentiment_component :=
      { sentiment_multiplier := sentiment.sentiment_multiplier
        consensus_score := sentiment.consensus_score
        sentiment_label := sentiment.sentiment_label
        bull_bear_ratio := sentiment.bull_bear_ratio
        confidence := sentiment.confidence
        weight := sentimentWeight }
    comparison :=
      { lstm_base := roundTo 2 base_predicted
        agentic_adjusted := roundTo 2 final_predicted
        topology_adjustment_pct := roundTo 2 topology_adjustment
        sentiment_adjustment_pct := roundTo 2 sentiment_adjustment
        total_adjustment_pct :=
          roundTo 2 (price_change_pct -
            ((base_predicted - current_price) / current_price * 100)) }
    shock_simulation_active := shock_simulation
    disclaimer := "This ensemble prediction is for demonstration purposes only. It combines multiple AI agents but should NOT be used for actual trading decisions." }

/-- The cache key: the triple that determines the string
`f"{symbol}_{current_price}_{shock_simulation}"`. -/
abbrev CacheKey := String × ℚ × Bool

/-- The `ensemble_cache` `TTLCache(maxsize=100, ttl=300)` state: entries with
their insertion times.  (Size-based eviction is not modelled; the cache claims
below concern consecutive calls.) -/
structure CacheState where
  entries : List (CacheKey × ℚ × EnsembleResult)
deriving DecidableEq

/-- First live entry for a key: an entry is live while less than 300 seconds
(the `ttl`) old. -/
def lookupEntry : List (CacheKey × ℚ × EnsembleResult) → CacheKey → ℚ →
    Option EnsembleResult
  | [], _, _ => none
  | e :: rest, k, now =>
      if e.1 = k ∧ now < e.2.1 + 300 then some e.2.2 else lookupEntry rest k now

/-- TTL lookup in the cache state. -/
def cacheLookup (c : CacheState) (k : CacheKey) (now : ℚ) :
    Option EnsembleResult :=
  lookupEntry c.entries k now

/-- `EnsembleOrchestrator.predict` (lines 401–532): return the live cached
result when present, otherwise compute, cache and return a fresh result. -/
def predict (env : Env) (cache : CacheState) (now : ℚ) (symbol : String)
    (current_price : ℚ) (sentiment_data : Option (List (String × PyVal)))
    (shock_simulation : Bool) : EnsembleResult × CacheState :=
  let cache_key : CacheKey := (symbol, current_price, shock_simulation)
  match cacheLookup cache cache_key now with
  | some r => (r, cache)
  | none =>
      let r := predictCore env now symbol current_price sentiment_data shock_simulation
      (r, ⟨(cache_key, now, r) :: cache.entries⟩)

/-! ## Concrete environments and fusion extracts used by the theorems -/

/-- The fused final prediction of `predict` (lines 438–444): base predicted
price, discounted by the (possibly shocked) topology adjustment, scaled by the
sentiment multiplier. -/
def fusedFinal (env : Env) (symbol : String) (current_price : ℚ)
    (sentiment_data : Option (List (String × PyVal))) (shock_simulation : Bool) :
    ℚ :=
  let quant_forecast := get_base_forecast env.quant symbol current_price
  let topology_risk0 := compute_laplacian_risk env.topo symbol
  let sentiment := get_sentiment_multiplier sentiment_data
  let topology_risk :=
    if shock_simulation then shockAdjust topology_risk0 else topology_risk0
  quant_forecast.predicted_price * topology_risk.risk_adjustment *
    sentiment.sentiment_multiplier

/-- The percent change driving the direction classification (line 459). -/
def fusedPct (env : Env) (symbol : String) (current_price : ℚ)
    (sentiment_data : Option (List (String × PyVal))) (shock_simulation : Bool) :
    ℚ :=
  ((fusedFinal env symbol current_price sentiment_data shock_simulation -
      current_price) / current_price) * 100

/-- The graph used to witness C1: one node "TCS", so "RELIANCE" is unknown. -/
def tcsOnlyEnv : TopologyEnv :=
  { graph_data := some { nodes := [{ id := "TCS", group := 1, risk_score := some 0.5 }],
                         links := [], clusters := [] }
    adjacency := none
    eig := Except.ok [] }

/-- A two-node topology environment with a concrete adjacency matrix and a
successfully computed eigenvalue list, exercising the non-default path. -/
def twoNodeEnv : TopologyEnv :=
  { graph_data := some
      { nodes := [{ id := "TCS", group := 1, risk_score := some 0.3 },
                  { id := "INFY", group := 1, risk_score := some 0.6 }]
        links := []
        clusters := [{ name := some "IT", risk := some "High",
                       members := ["TCS", "INFY"] }] }
    adjacency := some (fun i j => if i = j then 0 else 0.7)
    eig := Except.ok [0, 1.4] }

/-- A 21-price series alternating exact +10% and −10% moves, whose 20 simple
returns have mean 0 and population standard deviation exactly 1/10. -/
def altSeries : List ℚ :=
  (List.range 21).map (fun k =>
    if k % 2 = 0 then (99 / 100 : ℚ) ^ (k / 2)
    else (11 / 10) * (99 / 100) ^ (k / 2))

/-- A quant environment carrying `altSeries` in column "X.NS". -/
def altQuantEnv : QuantEnv :=
  ⟨some (fun c => if c = "X.NS" then some altSeries else none)⟩

/-- A 20-price series whose 5- and 20-period means give trend 0.02 and
momentum 0, so the sideways price change is exactly +1%. -/
def boundarySeries : List ℚ :=
  List.replicate 15 (149 / 150) ++ List.replicate 5 (51 / 50)

/-- The environment realizing a percent change of exactly 1. -/
def boundaryEnv : Env :=
  { quant := ⟨some (fun c => if c = "X.NS" then some boundarySeries else none)⟩
    topo := { graph_data := none, adjacency := none, eig := Except.ok [] } }

/-- A trivial environment: no market data, no graph. -/
def emptyEnv : Env :=
  { quant := ⟨none⟩
    topo := { graph_data := none, adjacency := none, eig := Except.ok [] } }

/-! ## Supporting lemmas -/

theorem roundTo_mono {n : ℕ} {a b : ℚ} (h : a ≤ b) : roundTo n a ≤ roundTo n b := by
  unfold roundTo
  have h10 : (0 : ℚ) < 10 ^ n := by positivity
  apply (div_le_div_iff_of_pos_right h10).mpr
  have hm : a * 10 ^ n ≤ b * 10 ^ n := mul_le_mul_of_nonneg_right h h10.le
  have hf : ⌊a * 10 ^ n + 1 / 2⌋ ≤ ⌊b * 10 ^ n + 1 / 2⌋ :=
    Int.floor_mono (by linarith)
  exact_mod_cast hf

/-- A filter misses at least one element on which the predicate is false. -/
theorem length_filter_le_of_false {α : Type} {l : List α} {p : α → Bool} {a : α}
    (ha : a ∈ l) (hpa : p a = false) : (l.filter p).length ≤ l.length - 1 := by
  induction l with
  | nil => cases ha
  | cons b t ih =>
      rcases List.mem_cons.mp ha with h | h
      · subst h
        rw [List.filter_cons, hpa]
        simpa using List.length_filter_le p t
      · have ht : 1 ≤ t.length := List.length_pos.mpr (List.ne_nil_of_mem h)
        have ih' := ih h
        rw [List.filter_cons]
        cases hpb : p b
        · simp only [Bool.false_eq_true, if_false, List.length_cons]
          omega
        · simp only [if_true, List.length_cons]
          omega

theorem fiedlerOf_nonneg {eigs : List ℚ} (h : ∀ μ ∈ eigs, 0 ≤ μ) :
    0 ≤ fiedlerOf eigs := by
  unfold fiedlerOf
  split
  · rename_i hlen
    have hslen : 1 < (eigs.insertionSort (fun a b => a ≤ b)).length := by
      rwa [List.length_insertionSort]
    rw [List.getD_eq_getElem?_getD, List.getElem?_eq_getElem hslen]
    apply h
    have hmem := List.getElem_mem hslen
    exact (List.perm_insertionSort (fun a b => a ≤ b) eigs).subset hmem
  · exact le_refl 0

theorem degreeCentrality_mem {A : ℕ → ℕ → ℚ} {i n : ℕ} (hin : i < n)
    (hAii : ¬ 0 < A i i) :
    0 ≤ degreeCentrality A i n ∧ degreeCentrality A i n ≤ 1 := by
  unfold degreeCentrality
  dsimp only
  split
  · rename_i hmax
    have hdeg : ((List.range n).filter (fun j => decide (A i j > 0))).length ≤ n - 1 := by
      have hfl := length_filter_le_of_false (p := fun j => decide (A i j > 0))
        (List.mem_range.mpr hin) (decide_eq_false hAii)
      simpa using hfl
    constructor
    · positivity
    · rw [div_le_one (by exact_mod_cast hmax)]
      exact_mod_cast hdeg
  · exact ⟨le_refl 0, by norm_num⟩

/-- The three possible direction triples. -/
theorem directionTriple_cases (v : PyVal) :
    directionTriple v = (1.05, 0.5, "Bullish") ∨
    directionTriple v = (0.95, -0.5, "Bearish") ∨
    directionTriple v = (1, 0, "Neutral") := by
  match v with
  | PyVal.str s =>
      by_cases hU : s = "UP" <;> by_cases hD : s = "DOWN" <;>
        simp [directionTriple, hU, hD]
  | PyVal.num _ | PyVal.bool _ | PyVal.null | PyVal.dict _ =>
      simp [directionTriple]

/-- Shape of a sentiment result: the neutral default, or the confidence-scaled
result of some direction triple. -/
theorem get_sentiment_multiplier_shape (d : Option (List (String × PyVal))) :
    get_sentiment_multiplier d = defaultSentiment ∨
    ∃ v c, get_sentiment_multiplier d = sentimentFrom (directionTriple v) c := by
  match d with
  | none => exact Or.inl rfl
  | some [] => exact Or.inl rfl
  | some (e :: m) =>
      simp only [get_sentiment_multiplier, sentimentRaw]
      rcases hnews : dictGet (e :: m) "news" (PyVal.dict []) with _ | _ | _ | _ | news
      case str => exact Or.inl rfl
      case num => exact Or.inl rfl
      case bool => exact Or.inl rfl
      case null => exact Or.inl rfl
      case dict =>
        dsimp only
        rcases hconf : dictGet news "confidence" (PyVal.num 50) with _ | c | b | _ | _
        case num =>
          exact Or.inr ⟨dictGet news "sentimentDirection" (PyVal.str "NEUTRAL"), c, rfl⟩
        case bool =>
          exact Or.inr ⟨dictGet news "sentimentDirection" (PyVal.str "NEUTRAL"),
            if b then 1 else 0, rfl⟩
        all_goals exact Or.inl rfl

/-- Field bounds of a scaled sentiment result, for any consensus in `[-1, 1]`
and any confidence. -/
theorem sentimentFrom_bounds (bcl : ℚ × ℚ × String) (c : ℚ)
    (hcons : -1 ≤ bcl.2.1 ∧ bcl.2.1 ≤ 1) :
    (-1 ≤ (sentimentFrom bcl c).consensus_score ∧
      (sentimentFrom bcl c).consensus_score ≤ 1) ∧
    (0.9 ≤ (sentimentFrom bcl c).sentiment_multiplier ∧
      (sentimentFrom bcl c).sentiment_multiplier ≤ 1.1) ∧
    (0 ≤ (sentimentFrom bcl c).bull_bear_ratio ∧
      (sentimentFrom bcl c).bull_bear_ratio ≤ 1) := by
  obtain ⟨h1, h2⟩ := hcons
  unfold sentimentFrom
  dsimp only
  refine ⟨⟨?_, ?_⟩, ⟨?_, ?_⟩, ?_, ?_⟩
  · calc (-1 : ℚ) = roundTo 2 (-1) := by decide
      _ ≤ roundTo 2 bcl.2.1 := roundTo_mono h1
  · calc roundTo 2 bcl.2.1 ≤ roundTo 2 1 := roundTo_mono h2
      _ = 1 := by decide
  · calc (0.9 : ℚ) = roundTo 4 0.9 := by decide
      _ ≤ _ := roundTo_mono (le_max_left _ _)
  · calc roundTo 4 (max 0.9 (min 1.1 _)) ≤ roundTo 4 1.1 :=
        roundTo_mono (max_le (by norm_num) (min_le_left _ _))
      _ = 1.1 := by decide
  · calc (0 : ℚ) = roundTo 2 0 := by decide
      _ ≤ roundTo 2 (0.5 + bcl.2.1 * 0.5) := roundTo_mono (by linarith)
  · calc roundTo 2 (0.5 + bcl.2.1 * 0.5) ≤ roundTo 2 1 := roundTo_mono (by linarith)
      _ = 1 := by decide

/-- Bounds of every sentiment result's consensus, multiplier and ratio. -/
theorem sentiment_bounds (d : Option (List (String × PyVal))) :
    (-1 ≤ (get_sentiment_multiplier d).consensus_score ∧
      (get_sentiment_multiplier d).consensus_score ≤ 1) ∧
    (0.9 ≤ (get_sentiment_multiplier d).sentiment_multiplier ∧
      (get_sentiment_multiplier d).sentiment_multiplier ≤ 1.1) ∧
    (0 ≤ (get_sentiment_multiplier d).bull_bear_ratio ∧
      (get_sentiment_multiplier d).bull_bear_ratio ≤ 1) := by
  rcases get_sentiment_multiplier_shape d with h | ⟨v, c, h⟩
  · rw [h]
    refine ⟨⟨by decide, by decide⟩, ⟨by decide, by decide⟩, by decide, by decide⟩
  · rw [h]
    apply sentimentFrom_bounds
    rcases directionTriple_cases v with hv | hv | hv <;> rw [hv] <;>
      exact ⟨by norm_num, by norm_num⟩

/-- The risk penalty assembled by `riskBody` never exceeds 0.2, and the stored
risk adjustment is at least 0.8, whenever the contagion input is at most 1 and
at most five neighbor signals were collected. -/
theorem riskBody_risk_adjustment_ge (g : GraphData) (symU : String)
    (c contagion : ℚ) (sigs : List NeighborSignal)
    (hcon : contagion ≤ 1) (hlen : sigs.length ≤ 5) :
    (0.8 : ℚ) ≤ (riskBody g symU c contagion sigs).risk_adjustment := by
  unfold riskBody
  dsimp only
  have hbear : ((sigs.filter (fun s => s.signal = "bearish")).length : ℚ) ≤ 5 := by
    exact_mod_cast le_trans (List.length_filter_le _ _) hlen
  have hbase :
      (if (findCluster g symU).2 = "Critical" then 0.05 + contagion * 0.05
        else if (findCluster g symU).2 = "High" then 0.03 + contagion * 0.03
        else contagion * 0.02) ≤ 0.1 := by
    split
    · linarith
    · split <;> linarith
  have hpen :
      (if ((sigs.filter (fun s => s.signal = "bearish")).length : ℚ) >
          (sigs.length : ℚ) / 2 then
        (if (findCluster g symU).2 = "Critical" then 0.05 + contagion * 0.05
          else if (findCluster g symU).2 = "High" then 0.03 + contagion * 0.03
          else contagion * 0.02) + 0.02 * ((sigs.filter (fun s => s.signal = "bearish")).length : ℚ)
        else
        (if (findCluster g symU).2 = "Critical" then 0.05 + contagion * 0.05
          else if (findCluster g symU).2 = "High" then 0.03 + contagion * 0.03
          else contagion * 0.02)) ≤ 0.2 := by
    split <;> linarith
  calc (0.8 : ℚ) = roundTo 4 0.8 := by decide
    _ ≤ _ := roundTo_mono (by linarith)

/-- The neighbor-signal list has at most five entries. -/
theorem neighborSignalsOf_length_le (g : GraphData) (A : ℕ → ℕ → ℚ)
    (node_idx : ℕ) : (neighborSignalsOf g A node_idx).length ≤ 5 := by
  unfold neighborSignalsOf
  exact le_trans (List.length_filterMap_le _ _)
    (le_trans (List.length_take_le _ _) (le_refl 5))

/-- Across all branches, the topology analyzer's stored risk adjustment is at
least 0.8 (1.0 on the default path), hence strictly positive. -/
theorem compute_laplacian_risk_adjustment_ge (env : TopologyEnv) (symbol : String) :
    (0.8 : ℚ) ≤ (compute_laplacian_risk env symbol).risk_adjustment := by
  unfold compute_laplacian_risk
  split
  · decide
  · rename_i g hg
    split
    · rcases hraw : computeRiskRaw env g (strUpper symbol) with e | r
      · show (0.8 : ℚ) ≤ defaultTopologyRisk.risk_adjustment
        decide
      · show (0.8 : ℚ) ≤ r.risk_adjustment
        revert hraw
        unfold computeRiskRaw
        dsimp only
        split
        · intro h
          cases h
          decide
        · split
          · intro h
            cases h
            exact riskBody_risk_adjustment_ge _ _ _ _ _ (by norm_num) (by simp)
          · split
            · intro h
              cases h
            · intro h
              cases h
              exact riskBody_risk_adjustment_ge _ _ _ _ _
                (min_le_right _ _) (neighborSignalsOf_length_le _ _ _)
    · decide

theorem roundTo_zero (n : ℕ) : roundTo n 0 = 0 := by
  unfold roundTo
  norm_num

theorem roundTo_one (n : ℕ) : roundTo n 1 = 1 := by
  unfold roundTo
  have h10 : (0 : ℚ) < 10 ^ n := by positivity
  have hf : ⌊(1 : ℚ) * 10 ^ n + 1 / 2⌋ = 10 ^ n := by
    rw [Int.floor_eq_iff]
    push_cast
    constructor <;> linarith
  rw [hf]
  push_cast
  exact div_self (by positivity)

theorem roundTo_unit_mem {n : ℕ} {x : ℚ} (h0 : 0 ≤ x) (h1 : x ≤ 1) :
    0 ≤ roundTo n x ∧ roundTo n x ≤ 1 := by
  constructor
  · calc (0 : ℚ) = roundTo n 0 := (roundTo_zero n).symm
      _ ≤ roundTo n x := roundTo_mono h0
  · calc roundTo n x ≤ roundTo n 1 := roundTo_mono h1
      _ = 1 := roundTo_one n

/-- The centrality and contagion scores stay inside `[0, 1]` whenever the
adjacency diagonal has no positive entry (no self-correlation) and the
eigen-solver outcome — when it succeeded — is a nonnegative list, which is the
case for the Laplacian of any spec-conformant adjacency (symmetric, weights
≥ 0, hence positive semidefinite). -/
theorem compute_laplacian_risk_bounds (env : TopologyEnv) (symbol : String)
    (hA : ∀ A, env.adjacency = some A → ∀ i, ¬ 0 < A i i)
    (he : ∀ eigs, env.eig = Except.ok eigs → ∀ μ ∈ eigs, 0 ≤ μ) :
    (0 ≤ (compute_laplacian_risk env symbol).centrality_score ∧
      (compute_laplacian_risk env symbol).centrality_score ≤ 1) ∧
    (0 ≤ (compute_laplacian_risk env symbol).contagion_risk ∧
      (compute_laplacian_risk env symbol).contagion_risk ≤ 1) := by
  have hdef : (0 ≤ defaultTopologyRisk.centrality_score ∧
      defaultTopologyRisk.centrality_score ≤ 1) ∧
      (0 ≤ defaultTopologyRisk.contagion_risk ∧
        defaultTopologyRisk.contagion_risk ≤ 1) := by decide
  unfold compute_laplacian_risk
  split
  · exact hdef
  · rename_i g hg
    split
    · rename_i hmem
      rcases hraw : computeRiskRaw env g (strUpper symbol) with e | r
      · exact hdef
      · show (0 ≤ r.centrality_score ∧ r.centrality_score ≤ 1) ∧
          (0 ≤ r.contagion_risk ∧ r.contagion_risk ≤ 1)
        revert hraw
        unfold computeRiskRaw
        dsimp only
        split
        · intro h
          cases h
          exact hdef
        · split
          · intro h
            cases h
            exact ⟨roundTo_unit_mem (by norm_num) (by norm_num),
              roundTo_unit_mem (by norm_num) (by norm_num)⟩
          · rename_i A hadj
            split
            · intro h
              cases h
            · rename_i eigs heig
              intro h
              cases h
              have hin : (nodeIds g).indexOf (strUpper symbol) < (nodeIds g).length :=
                List.indexOf_lt_length.mpr hmem
              have hc := degreeCentrality_mem hin (hA A hadj _)
              have hf : 0 ≤ fiedlerOf eigs := fiedlerOf_nonneg (he eigs heig)
              refine ⟨roundTo_unit_mem hc.1 hc.2, roundTo_unit_mem ?_ (min_le_right _ _)⟩
              exact le_min (by positivity) (by norm_num)
    · exact hdef

/-! ## Claims -/

/-- C1: for every symbol that is not a node of the loaded topology graph (or
when no graph data is loaded), `compute_laplacian_risk` returns exactly the
neutral default: penalty 0.0, risk adjustment 1.0, centrality 0.5, cluster
"Unknown", cluster risk "Moderate", empty neighbor signals, contagion 0.0. -/
theorem compute_laplacian_risk_default_of_unknown (env : TopologyEnv)
    (symbol : String)
    (h : env.graph_data = none ∨
      ∃ g, env.graph_data = some g ∧ strUpper symbol ∉ nodeIds g) :
    (compute_laplacian_risk env symbol).network_risk_penalty = 0 ∧
    (compute_laplacian_risk env symbol).risk_adjustment = 1 ∧
    (compute_laplacian_risk env symbol).centrality_score = 0.5 ∧
    (compute_laplacian_risk env symbol).cluster_name = "Unknown" ∧
    (compute_laplacian_risk env symbol).cluster_risk = "Moderate" ∧
    (compute_laplacian_risk env symbol).neighbor_signals = [] ∧
    (compute_laplacian_risk env symbol).contagion_risk = 0 := by
  have hd : compute_laplacian_risk env symbol = defaultTopologyRisk := by
    unfold compute_laplacian_risk
    rcases h with h | ⟨g, hg, hmem⟩
    · rw [h]
    · rw [hg]
      dsimp only
      rw [if_neg hmem]
  rw [hd]
  exact ⟨rfl, rfl, rfl, rfl, rfl, rfl, rfl⟩

theorem compute_laplacian_risk_default_of_unknown_witness :
    (compute_laplacian_risk tcsOnlyEnv "reliance").network_risk_penalty = 0 ∧
    (compute_laplacian_risk tcsOnlyEnv "reliance").risk_adjustment = 1 ∧
    (compute_laplacian_risk tcsOnlyEnv "reliance").centrality_score = 0.5 ∧
    (compute_laplacian_risk tcsOnlyEnv "reliance").cluster_name = "Unknown" ∧
    (compute_laplacian_risk tcsOnlyEnv "reliance").cluster_risk = "Moderate" ∧
    (compute_laplacian_risk tcsOnlyEnv "reliance").neighbor_signals = [] ∧
    (compute_laplacian_risk tcsOnlyEnv "reliance").contagion_risk = 0 :=
  compute_laplacian_risk_default_of_unknown tcsOnlyEnv "reliance"
    (Or.inr ⟨_, rfl, by decide⟩)

/-- C2: for every symbol whose available price series has fewer than 20
observations (or no series at all), `get_base_forecast` returns exactly the
fixed fallback forecast: predicted price = current price × 1.02, direction
"UP", confidence 65, volatility 0.02, trend strength 0.5, method "fallback". -/
theorem get_base_forecast_fallback_of_short_series (env : QuantEnv)
    (symbol : String) (current_price : ℚ)
    (h : seriesFor env symbol = none ∨
      ∃ prices, seriesFor env symbol = some prices ∧ prices.length < 20) :
    (get_base_forecast env symbol current_price).predicted_price =
        current_price * 1.02 ∧
    (get_base_forecast env symbol current_price).direction = "UP" ∧
    (get_base_forecast env symbol current_price).confidence = 65 ∧
    (get_base_forecast env symbol current_price).volatility = 0.02 ∧
    (get_base_forecast env symbol current_price).trend_strength = 0.5 ∧
    (get_base_forecast env symbol current_price).method = "fallback" := by
  have hd : get_base_forecast env symbol current_price =
      fallbackForecast current_price := by
    unfold get_base_forecast
    rcases h with h | ⟨prices, hp, hlen⟩
    · rw [h]
    · rw [hp]
      dsimp only
      rw [if_neg (by omega)]
  rw [hd]
  exact ⟨rfl, rfl, rfl, rfl, rfl, rfl⟩

theorem get_base_forecast_fallback_of_short_series_witness :
    (get_base_forecast ⟨none⟩ "TCS" 2950).predicted_price = 2950 * 1.02 ∧
    (get_base_forecast ⟨none⟩ "TCS" 2950).direction = "UP" ∧
    (get_base_forecast ⟨none⟩ "TCS" 2950).confidence = 65 ∧
    (get_base_forecast ⟨none⟩ "TCS" 2950).volatility = 0.02 ∧
    (get_base_forecast ⟨none⟩ "TCS" 2950).trend_strength = 0.5 ∧
    (get_base_forecast ⟨none⟩ "TCS" 2950).method = "fallback" :=
  get_base_forecast_fallback_of_short_series ⟨none⟩ "TCS" 2950 (Or.inl rfl)

/-- C6: for every payload whose news direction is one of UP / DOWN / NEUTRAL
and whose confidence lies in [0, 100], the sentiment multiplier lies in
[0.9, 1.1]; with an absent payload it is exactly 1.0. -/
theorem sentiment_multiplier_clamped :
    (∀ (m news : List (String × PyVal)) (s : String) (c : ℚ),
      dictGet m "news" (PyVal.dict []) = PyVal.dict news →
      dictGet news "sentimentDirection" (PyVal.str "NEUTRAL") = PyVal.str s →
      (s = "UP" ∨ s = "DOWN" ∨ s = "NEUTRAL") →
      dictGet news "confidence" (PyVal.num 50) = PyVal.num c →
      0 ≤ c → c ≤ 100 →
      0.9 ≤ (get_sentiment_multiplier (some m)).sentiment_multiplier ∧
        (get_sentiment_multiplier (some m)).sentiment_multiplier ≤ 1.1) ∧
    (get_sentiment_multiplier none).sentiment_multiplier = 1 := by
  constructor
  · intro m news s c _ _ _ _ _ _
    exact (sentiment_bounds (some m)).2.1
  · rfl

theorem sentiment_multiplier_clamped_witness :
    0.9 ≤ (get_sentiment_multiplier
        (some [("news", PyVal.dict [("sentimentDirection", PyVal.str "UP"),
          ("confidence", PyVal.num 80)])])).sentiment_multiplier ∧
      (get_sentiment_multiplier
        (some [("news", PyVal.dict [("sentimentDirection", PyVal.str "UP"),
          ("confidence", PyVal.num 80)])])).sentiment_multiplier ≤ 1.1 :=
  sentiment_multiplier_clamped.1 _
    [("sentimentDirection", PyVal.str "UP"), ("confidence", PyVal.num 80)]
    "UP" 80 rfl rfl (Or.inl rfl) rfl (by decide) (by decide)

/-- C5 counterexample: a sentiment payload carrying a confidence of 150 makes
`get_sentiment_multiplier` return a result whose confidence field is 150,
outside the stated range [0, 100] — the confidence is passed through without
clamping. -/
theorem sentiment_confidence_unclamped_cex :
    (get_sentiment_multiplier
        (some [("news", PyVal.dict [("sentimentDirection", PyVal.str "UP"),
          ("confidence", PyVal.num 150)])])).confidence = 150 ∧
      ¬ (get_sentiment_multiplier
        (some [("news", PyVal.dict [("sentimentDirection", PyVal.str "UP"),
          ("confidence", PyVal.num 150)])])).confidence ≤ 100 := by
  exact ⟨rfl, by decide⟩

/-- C5 (amended): the listed bounded fields stay within range — SentimentResult's
consensusScore ∈ [-1,1], sentimentMultiplier ∈ [0.9,1.1], bullBearRatio ∈ [0,1],
and TopologyRiskResult's centralityScore ∈ [0,1] and contagionRisk ∈ [0,1]
(the latter for graph state without positive self-correlation and with a
nonnegative eigen-solver outcome, as holds for the Laplacian of any
spec-conformant adjacency) — except SentimentResult's confidence, which is
passed through from the payload *unclamped*: it lies in [0,100] exactly when
the payload's confidence value (default 50) does. -/
theorem bounded_fields_amended :
    (∀ d : Option (List (String × PyVal)),
      (-1 ≤ (get_sentiment_multiplier d).consensus_score ∧
        (get_sentiment_multiplier d).consensus_score ≤ 1) ∧
      (0.9 ≤ (get_sentiment_multiplier d).sentiment_multiplier ∧
        (get_sentiment_multiplier d).sentiment_multiplier ≤ 1.1) ∧
      (0 ≤ (get_sentiment_multiplier d).bull_bear_ratio ∧
        (get_sentiment_multiplier d).bull_bear_ratio ≤ 1)) ∧
    (∀ (m news : List (String × PyVal)) (c : ℚ),
      dictGet m "news" (PyVal.dict []) = PyVal.dict news →
      dictGet news "confidence" (PyVal.num 50) = PyVal.num c →
      0 ≤ c → c ≤ 100 →
      0 ≤ (get_sentiment_multiplier (some m)).confidence ∧
        (get_sentiment_multiplier (some m)).confidence ≤ 100) ∧
    (∀ (env : TopologyEnv) (symbol : String),
      (∀ A, env.adjacency = some A → ∀ i, ¬ 0 < A i i) →
      (∀ eigs, env.eig = Except.ok eigs → ∀ μ ∈ eigs, 0 ≤ μ) →
      (0 ≤ (compute_laplacian_risk env symbol).centrality_score ∧
        (compute_laplacian_risk env symbol).centrality_score ≤ 1) ∧
      (0 ≤ (compute_laplacian_risk env symbol).contagion_risk ∧
        (compute_laplacian_risk env symbol).contagion_risk ≤ 1)) := by
  refine ⟨sentiment_bounds, ?_, compute_laplacian_risk_bounds⟩
  intro m news c hnews hconf hc0 hc100
  match m with
  | [] => exact ⟨by decide, by decide⟩
  | e :: t =>
      have hv : (get_sentiment_multiplier (some (e :: t))).confidence = c := by
        simp only [get_sentiment_multiplier, sentimentRaw, hnews, hconf]
        rfl
      rw [hv]
      exact ⟨hc0, hc100⟩

theorem bounded_fields_amended_witness :
    (0 ≤ (get_sentiment_multiplier
        (some [("news", PyVal.dict [("confidence", PyVal.num 70)])])).confidence ∧
      (get_sentiment_multiplier
        (some [("news", PyVal.dict [("confidence", PyVal.num 70)])])).confidence ≤ 100) ∧
    ((0 ≤ (compute_laplacian_risk twoNodeEnv "tcs").centrality_score ∧
        (compute_laplacian_risk twoNodeEnv "tcs").centrality_score ≤ 1) ∧
      (0 ≤ (compute_laplacian_risk twoNodeEnv "tcs").contagion_risk ∧
        (compute_laplacian_risk twoNodeEnv "tcs").contagion_risk ≤ 1)) :=
  ⟨bounded_fields_amended.2.1 _ [("confidence", PyVal.num 70)] 70 rfl rfl
      (by decide) (by decide),
    bounded_fields_amended.2.2 twoNodeEnv "tcs"
      (fun A h i => by cases h; simp)
      (fun eigs h => by cases h; decide)⟩

set_option maxRecDepth 100000 in
/-- C7 counterexample: on a series of 21 observations whose returns have
standard deviation exactly 0.1, the `volatility` field of the forecast is 10.0
(the standard deviation in percent, `round(std * 100, 2)`), not the standard
deviation 0.1 itself. -/
theorem volatility_not_std_cex :
    (get_base_forecast altQuantEnv "X" 100).volatility = 10 ∧
    stdDev (simpleReturns altSeries) = 1 / 10 ∧
    (get_base_forecast altQuantEnv "X" 100).volatility ≠
      stdDev (simpleReturns altSeries) :=
  ⟨by decide, by decide, by decide⟩

/-- C7 (amended): for every series of at least 20 (positive) observations, the
`volatility` field equals `round(std(returns) * 100, 2)` — the standard
deviation of the simple returns expressed in percent — while trend
`(SMA5 − SMA20)/SMA20` and momentum `(last − SMA5)/SMA5` drive the direction
and the trend-strength field as specified. -/
theorem quant_technical_fields_amended (env : QuantEnv) (symbol : String)
    (current_price : ℚ) (prices : List ℚ)
    (hs : seriesFor env symbol = some prices)
    (hlen : prices.length ≥ 20)
    (_hpos : ∀ x ∈ prices, 0 < x) :
    (get_base_forecast env symbol current_price).volatility =
        roundTo 2 (stdDev (simpleReturns prices) * 100) ∧
    (get_base_forecast env symbol current_price).trend_strength =
        roundTo 2 (min (|(listMean (prices.drop (prices.length - 5)) -
              listMean (prices.drop (prices.length - 20))) /
            listMean (prices.drop (prices.length - 20))| * 100) 1) ∧
    (get_base_forecast env symbol current_price).direction =
        (if (listMean (prices.drop (prices.length - 5)) -
              listMean (prices.drop (prices.length - 20))) /
              listMean (prices.drop (prices.length - 20)) > 0.01 ∧
            (prices.getLastD 0 - listMean (prices.drop (prices.length - 5))) /
              listMean (prices.drop (prices.length - 5)) > 0 then "UP"
         else if (listMean (prices.drop (prices.length - 5)) -
              listMean (prices.drop (prices.length - 20))) /
              listMean (prices.drop (prices.length - 20)) < -0.01 ∧
            (prices.getLastD 0 - listMean (prices.drop (prices.length - 5))) /
              listMean (prices.drop (prices.length - 5)) < 0 then "DOWN"
         else "SIDEWAYS") := by
  have hd : get_base_forecast env symbol current_price =
      quantTechnical prices current_price := by
    unfold get_base_forecast
    rw [hs]
    dsimp only
    rw [if_pos hlen]
  rw [hd]
  unfold quantTechnical
  dsimp only
  refine ⟨rfl, rfl, ?_⟩
  split_ifs <;> rfl

theorem quant_technical_fields_amended_witness :
    (get_base_forecast altQuantEnv "X" 100).volatility =
        roundTo 2 (stdDev (simpleReturns altSeries) * 100) ∧
    (get_base_forecast altQuantEnv "X" 100).trend_strength =
        roundTo 2 (min (|(listMean (altSeries.drop (altSeries.length - 5)) -
              listMean (altSeries.drop (altSeries.length - 20))) /
            listMean (altSeries.drop (altSeries.length - 20))| * 100) 1) ∧
    (get_base_forecast altQuantEnv "X" 100).direction =
        (if (listMean (altSeries.drop (altSeries.length - 5)) -
              listMean (altSeries.drop (altSeries.length - 20))) /
              listMean (altSeries.drop (altSeries.length - 20)) > 0.01 ∧
            (altSeries.getLastD 0 - listMean (altSeries.drop (altSeries.length - 5))) /
              listMean (altSeries.drop (altSeries.length - 5)) > 0 then "UP"
         else if (listMean (altSeries.drop (altSeries.length - 5)) -
              listMean (altSeries.drop (altSeries.length - 20))) /
              listMean (altSeries.drop (altSeries.length - 20)) < -0.01 ∧
            (altSeries.getLastD 0 - listMean (altSeries.drop (altSeries.length - 5))) /
              listMean (altSeries.drop (altSeries.length - 5)) < 0 then "DOWN"
         else "SIDEWAYS") :=
  quant_technical_fields_amended altQuantEnv "X" 100 altSeries rfl
    (by decide) (by decide)

/-- C8: each analyzer is a total function whose every run lands either on the
component's documented default or on a successfully computed raw result — an
internal error (a failed eigen-decomposition, a malformed sentiment payload)
is caught at the analyzer's boundary and replaced by the default, never
propagated. -/
theorem analyzers_total_default_on_error :
    (∀ (env : QuantEnv) (symbol : String) (current_price : ℚ),
      get_base_forecast env symbol current_price = fallbackForecast current_price ∨
      ∃ prices, seriesFor env symbol = some prices ∧ 20 ≤ prices.length ∧
        get_base_forecast env symbol current_price =
          quantTechnical prices current_price) ∧
    (∀ (env : TopologyEnv) (symbol : String),
      compute_laplacian_risk env symbol = defaultTopologyRisk ∨
      ∃ g r, env.graph_data = some g ∧
        computeRiskRaw env g (strUpper symbol) = Except.ok r ∧
        compute_laplacian_risk env symbol = r) ∧
    (∀ d, get_sentiment_multiplier d = defaultSentiment ∨
      ∃ m r, d = some m ∧ sentimentRaw m = Except.ok r ∧
        get_sentiment_multiplier d = r) := by
  refine ⟨?_, ?_, ?_⟩
  · intro env symbol current_price
    unfold get_base_forecast
    rcases hs : seriesFor env symbol with _ | prices
    · exact Or.inl rfl
    · dsimp only
      by_cases hlen : prices.length ≥ 20
      · rw [if_pos hlen]
        exact Or.inr ⟨prices, rfl, hlen, rfl⟩
      · rw [if_neg hlen]
        exact Or.inl rfl
  · intro env symbol
    unfold compute_laplacian_risk
    split
    · exact Or.inl rfl
    · rename_i g hg
      split
      · rcases hraw : computeRiskRaw env g (strUpper symbol) with e | r
        · exact Or.inl rfl
        · exact Or.inr ⟨g, r, hg, hraw, rfl⟩
      · exact Or.inl rfl
  · intro d
    match d with
    | none => exact Or.inl rfl
    | some [] => exact Or.inl rfl
    | some (e :: t) =>
        rcases hraw : sentimentRaw (e :: t) with er | r
        · left
          simp only [get_sentiment_multiplier, hraw]
        · right
          refine ⟨e :: t, r, rfl, hraw, ?_⟩
          simp only [get_sentiment_multiplier, hraw]

/-- C9: a computed percent change of exactly 1.0 or −1.0 classifies the final
direction as SIDEWAYS; UP holds exactly when the percent change is strictly
above 1 and DOWN exactly when it is strictly below −1.  (The guard
`current_price ≠ 0` keeps the model inside the regime where the Python
division is defined.) -/
theorem direction_boundary_sideways (env : Env) (now : ℚ) (symbol : String)
    (current_price : ℚ) (sentiment_data : Option (List (String × PyVal)))
    (shock_simulation : Bool) (_hp : current_price ≠ 0) :
    ((fusedPct env symbol current_price sentiment_data shock_simulation = 1 ∨
      fusedPct env symbol current_price sentiment_data shock_simulation = -1) →
      (predictCore env now symbol current_price sentiment_data
        shock_simulation).direction = "SIDEWAYS") ∧
    ((predictCore env now symbol current_price sentiment_data
        shock_simulation).direction = "UP" ↔
      1 < fusedPct env symbol current_price sentiment_data shock_simulation) ∧
    ((predictCore env now symbol current_price sentiment_data
        shock_simulation).direction = "DOWN" ↔
      fusedPct env symbol current_price sentiment_data shock_simulation < -1) := by
  have hd : (predictCore env now symbol current_price sentiment_data
      shock_simulation).direction =
      (if fusedPct env symbol current_price sentiment_data shock_simulation > 1
       then "UP"
       else if fusedPct env symbol current_price sentiment_data shock_simulation
          < -1 then "DOWN"
       else "SIDEWAYS") := rfl
  refine ⟨?_, ?_, ?_⟩
  · intro h
    rw [hd]
    rcases h with h | h <;> rw [h] <;> norm_num
  · rw [hd]
    split_ifs with h1 h2
    · simp [h1]
    · simp [h1]
    · simp [h1]
  · rw [hd]
    split_ifs with h1 h2
    · simp only [String.reduceEq, false_iff]
      intro h
      linarith
    · simp [h2]
    · simp [h2]

theorem direction_boundary_sideways_witness :
    (predictCore boundaryEnv 0 "x" 100 none false).direction = "SIDEWAYS" :=
  (direction_boundary_sideways boundaryEnv 0 "x" 100 none false
      (by norm_num)).1 (Or.inl (by decide))

/-- C3: with shock simulation enabled, `predict` reports a topology risk
adjustment of exactly 0.9 times the non-shock value (strictly smaller, the
non-shock adjustment being at least 0.8 > 0) and a network risk penalty of
exactly the non-shock value plus 0.1 (strictly larger); the shock transform is
applied to the analyzer's output before fusion. -/
theorem predict_shock_strictly_adjusts_topology (env : Env) (cache : CacheState)
    (now : ℚ) (symbol : String) (current_price : ℚ)
    (sentiment_data : Option (List (String × PyVal)))
    (hmt : cacheLookup cache (symbol, current_price, true) now = none)
    (hmf : cacheLookup cache (symbol, current_price, false) now = none) :
    (predict env cache now symbol current_price sentiment_data
        true).1.topology_component.risk_adjustment =
      0.9 * (predict env cache now symbol current_price sentiment_data
        false).1.topology_component.risk_adjustment ∧
    (predict env cache now symbol current_price sentiment_data
        true).1.topology_component.network_risk_penalty =
      (predict env cache now symbol current_price sentiment_data
        false).1.topology_component.network_risk_penalty + 0.1 ∧
    (predict env cache now symbol current_price sentiment_data
        true).1.topology_component.risk_adjustment <
      (predict env cache now symbol current_price sentiment_data
        false).1.topology_component.risk_adjustment ∧
    (predict env cache now symbol current_price sentiment_data
        false).1.topology_component.network_risk_penalty <
      (predict env cache now symbol current_price sentiment_data
        true).1.topology_component.network_risk_penalty := by
  have ht : (predict env cache now symbol current_price sentiment_data true).1 =
      predictCore env now symbol current_price sentiment_data true := by
    unfold predict
    dsimp only
    rw [hmt]
  have hf : (predict env cache now symbol current_price sentiment_data false).1 =
      predictCore env now symbol current_price sentiment_data false := by
    unfold predict
    dsimp only
    rw [hmf]
  have htt : (predictCore env now symbol current_price sentiment_data
      true).topology_component.risk_adjustment =
      (compute_laplacian_risk env.topo symbol).risk_adjustment * 0.9 := rfl
  have hft : (predictCore env now symbol current_price sentiment_data
      false).topology_component.risk_adjustment =
      (compute_laplacian_risk env.topo symbol).risk_adjustment := rfl
  have htp : (predictCore env now symbol current_price sentiment_data
      true).topology_component.network_risk_penalty =
      (compute_laplacian_risk env.topo symbol).network_risk_penalty + 0.1 := rfl
  have hfp : (predictCore env now symbol current_price sentiment_data
      false).topology_component.network_risk_penalty =
      (compute_laplacian_risk env.topo symbol).network_risk_penalty := rfl
  have hx : (0.8 : ℚ) ≤ (compute_laplacian_risk env.topo symbol).risk_adjustment :=
    compute_laplacian_risk_adjustment_ge env.topo symbol
  rw [ht, hf, htt, hft, htp, hfp]
  refine ⟨mul_comm _ _, rfl, ?_, ?_⟩ <;> linarith

theorem predict_shock_strictly_adjusts_topology_witness :
    (predict emptyEnv ⟨[]⟩ 0 "TCS" 2950 none
        true).1.topology_component.risk_adjustment =
      0.9 * (predict emptyEnv ⟨[]⟩ 0 "TCS" 2950 none
        false).1.topology_component.risk_adjustment ∧
    (predict emptyEnv ⟨[]⟩ 0 "TCS" 2950 none
        true).1.topology_component.network_risk_penalty =
      (predict emptyEnv ⟨[]⟩ 0 "TCS" 2950 none
        false).1.topology_component.network_risk_penalty + 0.1 ∧
    (predict emptyEnv ⟨[]⟩ 0 "TCS" 2950 none
        true).1.topology_component.risk_adjustment <
      (predict emptyEnv ⟨[]⟩ 0 "TCS" 2950 none
        false).1.topology_component.risk_adjustment ∧
    (predict emptyEnv ⟨[]⟩ 0 "TCS" 2950 none
        false).1.topology_component.network_risk_penalty <
      (predict emptyEnv ⟨[]⟩ 0 "TCS" 2950 none
        true).1.topology_component.network_risk_penalty :=
  predict_shock_strictly_adjusts_topology emptyEnv ⟨[]⟩ 0 "TCS" 2950 none rfl rfl

/-- After a cache miss stores a fresh result, any second call with the same
(symbol, price, shock flag) key that is still inside the entry's 300-second
time-to-live returns that stored result (whatever its sentiment payload) and
leaves the cache state unchanged. -/
theorem predict_miss_then_hit (env : Env) (cache : CacheState)
    (now1 now2 : ℚ) (symbol : String) (current_price : ℚ)
    (sd1 sd2 : Option (List (String × PyVal))) (shock : Bool)
    (hmiss : cacheLookup cache (symbol, current_price, shock) now1 = none)
    (hlive : now2 < now1 + 300) :
    predict env (predict env cache now1 symbol current_price sd1 shock).2 now2
        symbol current_price sd2 shock =
      ((predict env cache now1 symbol current_price sd1 shock).1,
        (predict env cache now1 symbol current_price sd1 shock).2) := by
  have h1 : predict env cache now1 symbol current_price sd1 shock =
      (predictCore env now1 symbol current_price sd1 shock,
        ⟨((symbol, current_price, shock), now1,
          predictCore env now1 symbol current_price sd1 shock) :: cache.entries⟩) := by
    unfold predict
    dsimp only
    rw [hmiss]
  rw [h1]
  unfold predict
  dsimp only
  have h2 : cacheLookup
      ⟨((symbol, current_price, shock), now1,
        predictCore env now1 symbol current_price sd1 shock) :: cache.entries⟩
      (symbol, current_price, shock) now2 =
      some (predictCore env now1 symbol current_price sd1 shock) := by
    unfold cacheLookup lookupEntry
    dsimp only
    rw [if_pos ⟨rfl, hlive⟩]
  rw [h2]

/-- C4: a second `predict` call with identical (symbol, current price, shock
flag), made while the first call's cache entry is live, returns the first
call's result unchanged — the same record, timestamp included — and performs
no recomputation (the cache state is untouched). -/
theorem predict_cache_hit_returns_cached (env : Env) (cache : CacheState)
    (now1 now2 : ℚ) (symbol : String) (current_price : ℚ)
    (sentiment_data : Option (List (String × PyVal))) (shock : Bool)
    (hmiss : cacheLookup cache (symbol, current_price, shock) now1 = none)
    (_h12 : now1 ≤ now2) (hlive : now2 < now1 + 300) :
    predict env (predict env cache now1 symbol current_price sentiment_data
        shock).2 now2 symbol current_price sentiment_data shock =
      ((predict env cache now1 symbol current_price sentiment_data shock).1,
        (predict env cache now1 symbol current_price sentiment_data shock).2) ∧
    (predict env (predict env cache now1 symbol current_price sentiment_data
        shock).2 now2 symbol current_price sentiment_data shock).1.timestamp =
      (predict env cache now1 symbol current_price sentiment_data
        shock).1.timestamp := by
  have h := predict_miss_then_hit env cache now1 now2 symbol current_price
    sentiment_data sentiment_data shock hmiss hlive
  exact ⟨h, by rw [h]⟩

theorem predict_cache_hit_returns_cached_witness :
    predict emptyEnv (predict emptyEnv ⟨[]⟩ 0 "TCS" 2950 none false).2 100
        "TCS" 2950 none false =
      ((predict emptyEnv ⟨[]⟩ 0 "TCS" 2950 none false).1,
        (predict emptyEnv ⟨[]⟩ 0 "TCS" 2950 none false).2) ∧
    (predict emptyEnv (predict emptyEnv ⟨[]⟩ 0 "TCS" 2950 none false).2 100
        "TCS" 2950 none false).1.timestamp =
      (predict emptyEnv ⟨[]⟩ 0 "TCS" 2950 none false).1.timestamp :=
  predict_cache_hit_returns_cached emptyEnv ⟨[]⟩ 0 100 "TCS" 2950 none false
    rfl (by norm_num) (by norm_num)

/-- C10: the cache key omits the sentiment payload — a second call with the
same (symbol, current price, shock flag) but an arbitrarily different
sentiment payload, made while the first call's entry is live, returns the
first call's cached result, so its output does not depend on its own
sentiment payload. -/
theorem predict_cache_ignores_sentiment (env : Env) (cache : CacheState)
    (now1 now2 : ℚ) (symbol : String) (current_price : ℚ)
    (sd1 sd2 : Option (List (String × PyVal))) (shock : Bool)
    (hmiss : cacheLookup cache (symbol, current_price, shock) now1 = none)
    (hlive : now2 < now1 + 300) :
    (predict env (predict env cache now1 symbol current_price sd1 shock).2 now2
        symbol current_price sd2 shock).1 =
      (predict env cache now1 symbol current_price sd1 shock).1 :=
  congrArg Prod.fst (predict_miss_then_hit env cache now1 now2 symbol
    current_price sd1 sd2 shock hmiss hlive)

theorem predict_cache_ignores_sentiment_witness :
    (predict emptyEnv (predict emptyEnv ⟨[]⟩ 0 "INFY" 1500 none false).2 200
        "INFY" 1500
        (some [("news", PyVal.dict [("sentimentDirection", PyVal.str "DOWN"),
          ("confidence", PyVal.num 95)])]) false).1 =
      (predict emptyEnv ⟨[]⟩ 0 "INFY" 1500 none false).1 :=
  predict_cache_ignores_sentiment emptyEnv ⟨[]⟩ 0 200 "INFY" 1500 none
    (some [("news", PyVal.dict [("sentimentDirection", PyVal.str "DOWN"),
      ("confidence", PyVal.num 95)])]) false rfl (by norm_num)

end QuantPulse
